import Mathlib

/-!
Verification of the OWDL workflow driver (`owdl_driver.py`).

The driver orchestrates one workflow run: it owns a mutable
`OWDLWorkflowInstance`, appends one `OWDLStateInstance` per execution
attempt of a state, and exposes start / next / retry / get_status /
cancel operations.  The backend (container execution service) is
external: each operation that talks to it takes the backend's reply as
an explicit parameter and records the calls it would make in the
result, so that claims about "no backend call" are statable.

Python exceptions abort mid-operation, leaving any mutations already
performed in place; an operation is therefore embedded as a function
returning the (possibly partially mutated) instance together with an
optional error and the list of backend calls made.
-/

namespace OWDL

/-- Container status as reported by the backend
(`ContainerInstanceStatus` in `fbpcs.entity.container_instance`). -/
inductive ContainerInstanceStatus where
  | UNKNOWN
  | STARTED
  | COMPLETED
  | FAILED
deriving DecidableEq

/-- A container handle: identifier plus backend-reported status. -/
structure ContainerInstance where
  instance_id : String
  status : ContainerInstanceStatus
deriving DecidableEq

/-- Status of one state attempt (`Status` in `owdl_state_instance`). -/
inductive StateStatus where
  | STARTED
  | COMPLETED
  | FAILED
  | CANCELLED
deriving DecidableEq

/-- Workflow-level status (`Status` in `owdl_workflow_instance`). -/
inductive WorkflowStatus where
  | CREATED
  | STARTED
  | COMPLETED
  | FAILED
  | CANCELLED
deriving DecidableEq

/-- A state definition (`OWDLState`): the containerized job, its base
argument list, timeout, retry limit, optional next-state identifier and
terminal flag. -/
structure OWDLState where
  container_definition : String
  package_name : String
  cmd_args_list : List String
  timeout : Nat
  retry_count : Nat
  next_ : Option String
  «end» : Bool
deriving DecidableEq

/-- A workflow definition (`OWDLWorkflow`): mapping from state
identifier to state definition, plus the starting identifier. -/
structure OWDLWorkflow where
  starts_at : String
  states : List (String × OWDLState)
deriving DecidableEq

/-- One execution attempt of a state (`OWDLStateInstance`). -/
structure OWDLStateInstance where
  owdl_state : OWDLState
  containers : List ContainerInstance
  status : StateStatus
  retry_num : Nat
deriving DecidableEq

/-- The mutable run record (`OWDLWorkflowInstance`): ordered sequence of
state attempts plus a workflow status. -/
structure OWDLWorkflowInstance where
  instance_id : String
  owdl_workflow : OWDLWorkflow
  state_instances : List OWDLStateInstance
  status : WorkflowStatus
deriving DecidableEq

/-- Error taxonomy.  In the source all of these are raised as
`OWDLRuntimeError` with distinct messages; we distinguish them by raise
site, matching the spec's taxonomy.  `KeyNotFound` models Python's
`KeyError` on a missing state identifier in the workflow mapping. -/
inductive OWDLError where
  | MissingRepository
  | InvalidArguments
  | InvalidTransition
  | RetryLimitExceeded
  | NoStateStarted
  | KeyNotFound
deriving DecidableEq

/-- A call to the backend collaborator (`OneDockerService`). -/
inductive BackendCall where
  | startContainers (container_definition package_name : String)
      (cmd_args_list : List String) (timeout : Nat)
  | getContainers (ids : List String)
  | stopContainers (ids : List String)
deriving DecidableEq

/-- Result of one driver operation: optional error (mutations performed
before the raise are kept, as in Python), the instance after the call,
and the backend calls made. -/
structure OpResult where
  err : Option OWDLError
  inst : OWDLWorkflowInstance
  calls : List BackendCall
deriving DecidableEq

/-- Replace the last element of a list by `f` of it, modelling Python's
in-place mutation of `state_instances[-1]`. -/
def updateLast (f : α → α) : List α → List α
  | [] => []
  | [a] => [f a]
  | a :: b :: rest => a :: updateLast f (b :: rest)

/-- Number of state instances in `l` whose state definition equals `s`.
The Python source computes this as `sum(state_inst.owdl_state == curr_state
for state_inst in ...state_instances)`; the state entities are plain
value objects, so `==` is structural equality. -/
def sameStateCount (l : List OWDLStateInstance) (s : OWDLState) : Nat :=
  l.countP (fun si => decide (si.owdl_state = s))

/-- Embedding of `OWDLDriver._get_retry_num`: the count of existing
state instances whose state definition equals `curr_state`. -/
def _get_retry_num (wfi : OWDLWorkflowInstance) (curr_state : OWDLState) : Nat :=
  sameStateCount wfi.state_instances curr_state

/-- Successful tail of `OWDLDriver._run_state`: one backend start call,
then append a new STARTED state instance whose retry number is
`_get_retry_num`. -/
def execState (wfi : OWDLWorkflowInstance) (curr_state : OWDLState)
    (cmd_args : List String) (newContainers : List ContainerInstance) : OpResult :=
  { err := none
    inst := { wfi with
      state_instances := wfi.state_instances ++
        [⟨curr_state, newContainers, StateStatus.STARTED,
          _get_retry_num wfi curr_state⟩] }
    calls := [BackendCall.startContainers curr_state.container_definition
      curr_state.package_name cmd_args curr_state.timeout] }

/-- Embedding of `OWDLDriver._run_state`.  Python's `if args:` is
truthiness: a `None` or empty list skips the length check and the merge.
A non-empty `args` of wrong length raises before any backend call or
append. -/
def _run_state (wfi : OWDLWorkflowInstance) (curr_state : OWDLState)
    (args : Option (List String)) (newContainers : List ContainerInstance) : OpResult :=
  match args with
  | some a =>
    if a = [] then
      execState wfi curr_state curr_state.cmd_args_list newContainers
    else if a.length ≠ curr_state.cmd_args_list.length then
      { err := some OWDLError.InvalidArguments, inst := wfi, calls := [] }
    else
      execState wfi curr_state
        ((curr_state.cmd_args_list.zip a).map (fun p => p.1 ++ " " ++ p.2))
        newContainers
  | none => execState wfi curr_state curr_state.cmd_args_list newContainers

/-- Embedding of `OWDLDriver.start`: requires CREATED, runs the starting
state, then sets the workflow STARTED if still CREATED. -/
def start (wfi : OWDLWorkflowInstance)
    (newContainers : List ContainerInstance) : OpResult :=
  if wfi.status ≠ WorkflowStatus.CREATED then
    { err := some OWDLError.InvalidTransition, inst := wfi, calls := [] }
  else
    match wfi.owdl_workflow.states.lookup wfi.owdl_workflow.starts_at with
    | none => { err := some OWDLError.KeyNotFound, inst := wfi, calls := [] }
    | some curr_state =>
      match _run_state wfi curr_state none newContainers with
      | ⟨some e, inst2, calls2⟩ => ⟨some e, inst2, calls2⟩
      | ⟨none, inst2, calls2⟩ =>
        if inst2.status = WorkflowStatus.CREATED then
          ⟨none, { inst2 with status := WorkflowStatus.STARTED }, calls2⟩
        else
          ⟨none, inst2, calls2⟩

/-- Resolution of the state `next()` will run from the current state:
the state named by `next_` when present (found in the workflow mapping),
else the current state itself. -/
def resolveNext (wf : OWDLWorkflow) (s : OWDLState) : Option OWDLState :=
  match s.next_ with
  | some n => wf.states.lookup n
  | none => some s

/-- Embedding of `OWDLDriver.next`.  The source fetches the current
state instance first (raising on an empty sequence), then checks the
guard, then the terminal flag, then resolves `next_` (falling back to
the current state when it is `None`) and runs it. -/
def next (wfi : OWDLWorkflowInstance) (args : Option (List String))
    (newContainers : List ContainerInstance) : OpResult :=
  match wfi.state_instances.getLast? with
  | none => { err := some OWDLError.NoStateStarted, inst := wfi, calls := [] }
  | some csi =>
    if wfi.status ≠ WorkflowStatus.STARTED ∨ csi.status ≠ StateStatus.COMPLETED then
      { err := some OWDLError.InvalidTransition, inst := wfi, calls := [] }
    else if csi.owdl_state.«end» then
      { err := none, inst := { wfi with status := WorkflowStatus.COMPLETED },
        calls := [] }
    else
      match resolveNext wfi.owdl_workflow csi.owdl_state with
      | none => { err := some OWDLError.KeyNotFound, inst := wfi, calls := [] }
      | some s => _run_state wfi s args newContainers

/-- Loop body of `OWDLDriver._get_state_status`: walk the containers
with a `has_started` flag, returning FAILED at the first FAILED
container. -/
def stateStatusLoop : List ContainerInstance → Bool → StateStatus
  | [], has_started =>
    if has_started then StateStatus.STARTED else StateStatus.COMPLETED
  | c :: rest, has_started =>
    if c.status = ContainerInstanceStatus.STARTED ∨
        c.status = ContainerInstanceStatus.UNKNOWN then
      stateStatusLoop rest true
    else if c.status = ContainerInstanceStatus.FAILED then
      StateStatus.FAILED
    else
      stateStatusLoop rest has_started

/-- Embedding of `OWDLDriver._get_state_status`: aggregate container
statuses into a state status. -/
def _get_state_status (containers : List ContainerInstance) : StateStatus :=
  stateStatusLoop containers false

/-- Aggregation rule as the spec words it: any FAILED container gives
FAILED, else any STARTED or UNKNOWN container gives STARTED, else
COMPLETED.  Stated separately so the code's loop can be compared with
it. -/
def aggSpec (l : List ContainerInstance) : StateStatus :=
  if l.any (fun c => decide (c.status = ContainerInstanceStatus.FAILED)) then
    StateStatus.FAILED
  else if l.any (fun c => decide (c.status = ContainerInstanceStatus.STARTED ∨
      c.status = ContainerInstanceStatus.UNKNOWN)) then
    StateStatus.STARTED
  else
    StateStatus.COMPLETED

/-- Embedding of `OWDLDriver._get_workflow_status`: FAILED state gives
FAILED workflow, CANCELLED state gives CANCELLED workflow, otherwise the
workflow status is unchanged. -/
def _get_workflow_status (curr : WorkflowStatus) (status : StateStatus) : WorkflowStatus :=
  if status = StateStatus.FAILED then WorkflowStatus.FAILED
  else if status = StateStatus.CANCELLED then WorkflowStatus.CANCELLED
  else curr

/-- Embedding of `OWDLDriver.get_status`: no refresh for
CREATED/COMPLETED workflows or a CANCELLED current state; otherwise
query the backend, write the refreshed containers and recomputed status
onto the current state instance and derive the workflow status.
`refreshed` is the backend's `get_containers` reply. -/
def get_status (wfi : OWDLWorkflowInstance)
    (refreshed : List ContainerInstance) : OpResult :=
  if wfi.status = WorkflowStatus.CREATED ∨ wfi.status = WorkflowStatus.COMPLETED then
    { err := none, inst := wfi, calls := [] }
  else
    match wfi.state_instances.getLast? with
    | none => { err := some OWDLError.NoStateStarted, inst := wfi, calls := [] }
    | some csi =>
      if csi.status = StateStatus.CANCELLED then
        { err := none, inst := wfi, calls := [] }
      else
        { err := none
          inst := { wfi with
            state_instances := updateLast
              (fun si =>
                { si with
                  containers := refreshed
                  status := _get_state_status refreshed })
              wfi.state_instances
            status := _get_workflow_status wfi.status (_get_state_status refreshed) }
          calls := [BackendCall.getContainers
            (csi.containers.map (fun c => c.instance_id))] }

/-- Embedding of `OWDLDriver.cancel_state`: requires a STARTED workflow
and a STARTED current state instance; sets the current state instance
CANCELLED and stops its containers. -/
def cancel_state (wfi : OWDLWorkflowInstance) : OpResult :=
  if wfi.status ≠ WorkflowStatus.STARTED then
    { err := some OWDLError.InvalidTransition, inst := wfi, calls := [] }
  else
    match wfi.state_instances.getLast? with
    | none => { err := some OWDLError.NoStateStarted, inst := wfi, calls := [] }
    | some csi =>
      if csi.status ≠ StateStatus.STARTED then
        { err := some OWDLError.InvalidTransition, inst := wfi, calls := [] }
      else
        { err := none
          inst := { wfi with
            state_instances := updateLast
              (fun si => { si with status := StateStatus.CANCELLED })
              wfi.state_instances }
          calls := [BackendCall.stopContainers
            (csi.containers.map (fun c => c.instance_id))] }

/-- Embedding of `OWDLDriver.cancel_workflow`: cancel the current state,
then (only if that succeeded) mark the workflow CANCELLED. -/
def cancel_workflow (wfi : OWDLWorkflowInstance) : OpResult :=
  match cancel_state wfi with
  | ⟨some e, inst2, calls2⟩ => ⟨some e, inst2, calls2⟩
  | ⟨none, inst2, calls2⟩ =>
    ⟨none, { inst2 with status := WorkflowStatus.CANCELLED }, calls2⟩

/-- Embedding of `OWDLDriver.retry`.  Guard order follows the source:
workflow-status guard, then the current-instance fetch, then the
retry-limit guard; the FAILED/CANCELLED branch first mutates the current
instance's status to STARTED and only then calls `_run_state` (so a
failure inside `_run_state` leaves that mutation in place); any other
current status is a silent no-op. -/
def retry (wfi : OWDLWorkflowInstance) (args : Option (List String))
    (newContainers : List ContainerInstance) : OpResult :=
  if wfi.status = WorkflowStatus.CREATED ∨ wfi.status = WorkflowStatus.CANCELLED ∨
      wfi.status = WorkflowStatus.COMPLETED then
    { err := some OWDLError.InvalidTransition, inst := wfi, calls := [] }
  else
    match wfi.state_instances.getLast? with
    | none => { err := some OWDLError.NoStateStarted, inst := wfi, calls := [] }
    | some csi =>
      if csi.retry_num ≥ csi.owdl_state.retry_count then
        { err := some OWDLError.RetryLimitExceeded, inst := wfi, calls := [] }
      else if csi.status = StateStatus.FAILED ∨ csi.status = StateStatus.CANCELLED then
        _run_state
          { wfi with
            state_instances := updateLast
              (fun si => { si with status := StateStatus.STARTED })
              wfi.state_instances }
          csi.owdl_state args newContainers
      else
        { err := none, inst := wfi, calls := [] }

/-- Embedding of `OWDLDriver.is_completed`. -/
def is_completed (wfi : OWDLWorkflowInstance) : Bool :=
  wfi.status = WorkflowStatus.COMPLETED

/-- Embedding of `OWDLDriver.get_current_retry_num`: retry number of the
current (last) state instance, or an error on an empty sequence. -/
def get_current_retry_num (wfi : OWDLWorkflowInstance) : Except OWDLError Nat :=
  match wfi.state_instances.getLast? with
  | none => Except.error OWDLError.NoStateStarted
  | some csi => Except.ok csi.retry_num

/-- Projection of a state instance to the fields the retry-number
invariant depends on. -/
def projSI (si : OWDLStateInstance) : OWDLState × Nat :=
  (si.owdl_state, si.retry_num)

/-- The retry-number invariant on a sequence of state instances: each
record's retry number equals the number of records appended before it
with the same state definition. -/
def retry_num_ok (l : List OWDLStateInstance) : Prop :=
  ∀ (i : Nat) (h : i < l.length),
    (l.get ⟨i, h⟩).retry_num = sameStateCount (l.take i) (l.get ⟨i, h⟩).owdl_state

/-- The retry-number invariant stated on projected (state definition,
retry number) pairs; used as a proof bridge for `retry_num_ok`, since
driver operations may rewrite the other fields of a state instance. -/
def pairRetryOk (L : List (OWDLState × Nat)) : Prop :=
  ∀ (i : Nat) (h : i < L.length),
    (L.get ⟨i, h⟩).2 =
      (L.take i).countP (fun q => decide (q.1 = (L.get ⟨i, h⟩).1))

/-- Workflow instances reachable from a fresh CREATED instance by any
sequence of driver operations, with arbitrary backend replies. -/
inductive Reachable : OWDLWorkflowInstance → Prop where
  | init (id : String) (wf : OWDLWorkflow) :
      Reachable ⟨id, wf, [], WorkflowStatus.CREATED⟩
  | start_step (wfi : OWDLWorkflowInstance) (cs : List ContainerInstance) :
      Reachable wfi → Reachable (start wfi cs).inst
  | next_step (wfi : OWDLWorkflowInstance) (args : Option (List String))
      (cs : List ContainerInstance) :
      Reachable wfi → Reachable (next wfi args cs).inst
  | retry_step (wfi : OWDLWorkflowInstance) (args : Option (List String))
      (cs : List ContainerInstance) :
      Reachable wfi → Reachable (retry wfi args cs).inst
  | get_status_step (wfi : OWDLWorkflowInstance) (refreshed : List ContainerInstance) :
      Reachable wfi → Reachable (get_status wfi refreshed).inst
  | cancel_state_step (wfi : OWDLWorkflowInstance) :
      Reachable wfi → Reachable (cancel_state wfi).inst
  | cancel_workflow_step (wfi : OWDLWorkflowInstance) :
      Reachable wfi → Reachable (cancel_workflow wfi).inst

/-- Success condition of `cancel_state`: STARTED workflow and STARTED
current (last) state instance. -/
def cancel_ok (wfi : OWDLWorkflowInstance) : Prop :=
  wfi.status = WorkflowStatus.STARTED ∧
    ∃ csi, wfi.state_instances.getLast? = some csi ∧
      csi.status = StateStatus.STARTED

/-- A one-state workflow definition used as concrete input: state `A`
has one base argument fragment, retry limit 1, no next state, not
terminal. -/
def stateA : OWDLState :=
  ⟨"cd", "pkg", ["--x"], 10, 1, none, false⟩

/-- A terminal state definition used as concrete input. -/
def stateB : OWDLState :=
  ⟨"cd", "pkg", [], 10, 1, none, true⟩

/-- A concrete workflow definition whose mapping holds `stateA` under
key `A` and `stateB` under key `B`. -/
def wfDef1 : OWDLWorkflow :=
  ⟨"A", [("A", stateA), ("B", stateB)]⟩

/-- A fresh CREATED workflow instance with an empty attempt sequence. -/
def freshWfi : OWDLWorkflowInstance :=
  ⟨"run1", wfDef1, [], WorkflowStatus.CREATED⟩

/-- A concrete FAILED run: one FAILED attempt of `stateA`, workflow
FAILED. -/
def failedWfi : OWDLWorkflowInstance :=
  ⟨"run1", wfDef1, [⟨stateA, [], StateStatus.FAILED, 0⟩], WorkflowStatus.FAILED⟩

/-- A concrete running run: one COMPLETED attempt of `stateA`, workflow
STARTED. -/
def completedAWfi : OWDLWorkflowInstance :=
  ⟨"run1", wfDef1, [⟨stateA, [], StateStatus.COMPLETED, 0⟩], WorkflowStatus.STARTED⟩

/-- A concrete running run: one STARTED attempt of `stateA`, workflow
STARTED. -/
def startedAWfi : OWDLWorkflowInstance :=
  ⟨"run1", wfDef1, [⟨stateA, [], StateStatus.STARTED, 0⟩], WorkflowStatus.STARTED⟩

/-- A concrete running run on the terminal state: one COMPLETED attempt
of `stateB`, workflow STARTED. -/
def completedBWfi : OWDLWorkflowInstance :=
  ⟨"run1", wfDef1, [⟨stateB, [], StateStatus.COMPLETED, 0⟩], WorkflowStatus.STARTED⟩

/-- A concrete FAILED run whose single attempt of `stateA` already
carries retry number 1, equal to `stateA`'s retry limit. -/
def exhaustedWfi : OWDLWorkflowInstance :=
  ⟨"run1", wfDef1, [⟨stateA, [], StateStatus.FAILED, 1⟩], WorkflowStatus.FAILED⟩

/-- A concrete container list with one COMPLETED and one FAILED
container. -/
def containersCF : List ContainerInstance :=
  [⟨"c1", ContainerInstanceStatus.COMPLETED⟩, ⟨"c2", ContainerInstanceStatus.FAILED⟩]

/-- The same containers as `containersCF`, permuted. -/
def containersFC : List ContainerInstance :=
  [⟨"c2", ContainerInstanceStatus.FAILED⟩, ⟨"c1", ContainerInstanceStatus.COMPLETED⟩]

/-! ## Helper lemmas -/

lemma any_of_perm {l₁ l₂ : List α} (h : l₁.Perm l₂) (p : α → Bool) :
    l₁.any p = l₂.any p := by
  cases hb : l₂.any p
  · rw [List.any_eq_false] at hb ⊢
    intro x hx
    exact hb x (h.mem_iff.mp hx)
  · rw [List.any_eq_true] at hb ⊢
    obtain ⟨x, hx, hpx⟩ := hb
    exact ⟨x, h.mem_iff.mpr hx, hpx⟩

lemma stateStatusLoop_eq (l : List ContainerInstance) (b : Bool) :
    stateStatusLoop l b =
      if l.any (fun c => decide (c.status = ContainerInstanceStatus.FAILED)) then
        StateStatus.FAILED
      else if b || l.any (fun c => decide (c.status = ContainerInstanceStatus.STARTED ∨
          c.status = ContainerInstanceStatus.UNKNOWN)) then
        StateStatus.STARTED
      else
        StateStatus.COMPLETED := by
  induction l generalizing b with
  | nil => simp [stateStatusLoop]
  | cons c rest ih =>
    cases hc : c.status <;>
      simp [stateStatusLoop, hc, ih]

lemma get_state_status_eq_aggSpec (l : List ContainerInstance) :
    _get_state_status l = aggSpec l := by
  simp [_get_state_status, aggSpec, stateStatusLoop_eq]

lemma getLast?_split {l : List α} {a : α} (h : l.getLast? = some a) :
    l = l.dropLast ++ [a] := by
  induction l with
  | nil => simp at h
  | cons x xs ih =>
    cases xs with
    | nil =>
      simp only [List.getLast?_singleton, Option.some.injEq] at h
      simp [h]
    | cons y ys =>
      have h2 : (y :: ys).getLast? = some a := by
        rw [← h]
        exact List.getLast?_cons_cons.symm
      have := ih h2
      calc x :: y :: ys = x :: ((y :: ys).dropLast ++ [a]) := by rw [← this]
        _ = (x :: y :: ys).dropLast ++ [a] := by simp [List.dropLast]

lemma updateLast_concat (f : α → α) (l : List α) (a : α) :
    updateLast f (l ++ [a]) = l ++ [f a] := by
  induction l with
  | nil => simp [updateLast]
  | cons x xs ih =>
    cases xs with
    | nil => simp [updateLast]
    | cons y ys =>
      have : (x :: y :: ys) ++ [a] = x :: ((y :: ys) ++ [a]) := rfl
      rw [this]
      show x :: updateLast f ((y :: ys) ++ [a]) = (x :: y :: ys) ++ [f a]
      rw [ih]
      rfl

/-! ## C10 -/

/-- C10: aggregating an empty container list yields COMPLETED — the
empty case is neither an error nor STARTED. -/
theorem get_state_status_empty_completed :
    _get_state_status [] = StateStatus.COMPLETED := rfl

/-! ## C4 -/

/-- C4: `_get_state_status` returns FAILED if any container is FAILED,
else STARTED if any is STARTED or UNKNOWN, else COMPLETED; the result is
invariant under permutation of the input, and any single FAILED
container forces FAILED. -/
theorem get_state_status_spec_perm (l l2 : List ContainerInstance) (h : l.Perm l2) :
    _get_state_status l = aggSpec l ∧
    _get_state_status l = _get_state_status l2 ∧
    ((∃ c ∈ l, c.status = ContainerInstanceStatus.FAILED) →
      _get_state_status l = StateStatus.FAILED) := by
  refine ⟨get_state_status_eq_aggSpec l, ?_, ?_⟩
  · rw [get_state_status_eq_aggSpec, get_state_status_eq_aggSpec]
    unfold aggSpec
    rw [any_of_perm h, any_of_perm h]
  · rintro ⟨c, hc, hst⟩
    rw [get_state_status_eq_aggSpec]
    unfold aggSpec
    rw [if_pos]
    rw [List.any_eq_true]
    exact ⟨c, hc, by simp [hst]⟩

/-- Witness for C4 at a concrete two-container list and its
permutation. -/
theorem get_state_status_spec_perm_witness :
    _get_state_status containersCF = aggSpec containersCF ∧
    _get_state_status containersCF = _get_state_status containersFC ∧
    ((∃ c ∈ containersCF, c.status = ContainerInstanceStatus.FAILED) →
      _get_state_status containersCF = StateStatus.FAILED) :=
  get_state_status_spec_perm containersCF containersFC (by decide)

/-! ## C7 -/

/-- C7: `next` on a STARTED workflow whose current state instance is
COMPLETED and whose state definition is terminal sets the workflow
COMPLETED, appends no state instance and makes no backend call. -/
theorem next_terminal_completes_workflow (wfi : OWDLWorkflowInstance)
    (args : Option (List String)) (cs : List ContainerInstance)
    (csi : OWDLStateInstance)
    (hlast : wfi.state_instances.getLast? = some csi)
    (hw : wfi.status = WorkflowStatus.STARTED)
    (hs : csi.status = StateStatus.COMPLETED)
    (hend : csi.owdl_state.«end» = true) :
    next wfi args cs =
      { err := none, inst := { wfi with status := WorkflowStatus.COMPLETED },
        calls := [] } := by
  simp [next, hlast, hw, hs, hend]

/-- Witness for C7: a STARTED run on the terminal state `stateB` with a
COMPLETED current attempt. -/
theorem next_terminal_completes_workflow_witness :
    next completedBWfi none [] =
      { err := none,
        inst := { completedBWfi with status := WorkflowStatus.COMPLETED },
        calls := [] } :=
  next_terminal_completes_workflow completedBWfi none []
    ⟨stateB, [], StateStatus.COMPLETED, 0⟩ rfl rfl rfl rfl

/-! ## C9 -/

/-- C9: `next` on a STARTED workflow whose current state instance is
COMPLETED, with a non-terminal state definition that names no next
state, does not fail: it re-runs the same state definition, appending a
new STARTED state instance for it. -/
theorem next_no_next_reruns_current (wfi : OWDLWorkflowInstance)
    (cs : List ContainerInstance) (csi : OWDLStateInstance)
    (hlast : wfi.state_instances.getLast? = some csi)
    (hw : wfi.status = WorkflowStatus.STARTED)
    (hs : csi.status = StateStatus.COMPLETED)
    (hend : csi.owdl_state.«end» = false)
    (hnext : csi.owdl_state.next_ = none) :
    next wfi none cs =
      { err := none
        inst := { wfi with
          state_instances := wfi.state_instances ++
            [⟨csi.owdl_state, cs, StateStatus.STARTED,
              sameStateCount wfi.state_instances csi.owdl_state⟩] }
        calls := [BackendCall.startContainers csi.owdl_state.container_definition
          csi.owdl_state.package_name csi.owdl_state.cmd_args_list
          csi.owdl_state.timeout] } := by
  simp [next, hlast, hw, hs, hend, resolveNext, hnext, _run_state, execState,
    _get_retry_num]

/-! ## More helper lemmas -/

lemma countP_updateLast (p : α → Bool) (f : α → α) (hp : ∀ a, p (f a) = p a)
    (l : List α) : (updateLast f l).countP p = l.countP p := by
  induction l with
  | nil => rfl
  | cons x xs ih =>
    cases xs with
    | nil => simp [updateLast, List.countP_cons, hp]
    | cons y ys =>
      have hu : updateLast f (x :: y :: ys) = x :: updateLast f (y :: ys) := rfl
      rw [hu, List.countP_cons, List.countP_cons, ih]

lemma map_updateLast (f : α → α) (g : α → β) (hfg : ∀ a, g (f a) = g a)
    (l : List α) : (updateLast f l).map g = l.map g := by
  induction l with
  | nil => rfl
  | cons x xs ih =>
    cases xs with
    | nil => simp [updateLast, hfg]
    | cons y ys =>
      have hu : updateLast f (x :: y :: ys) = x :: updateLast f (y :: ys) := rfl
      rw [hu, List.map_cons, List.map_cons, ih]

lemma sameStateCount_concat (l : List OWDLStateInstance) (si : OWDLStateInstance)
    (s : OWDLState) :
    sameStateCount (l ++ [si]) s =
      sameStateCount l s + (if si.owdl_state = s then 1 else 0) := by
  simp [sameStateCount, List.countP_append, List.countP_cons]

lemma retry_num_ok_last (l0 : List OWDLStateInstance) (csi : OWDLStateInstance)
    (h : retry_num_ok (l0 ++ [csi])) :
    csi.retry_num = sameStateCount l0 csi.owdl_state := by
  have hlen : l0.length < (l0 ++ [csi]).length := by simp
  have hh := h l0.length hlen
  have hget : (l0 ++ [csi]).get ⟨l0.length, hlen⟩ = csi := by simp
  have htake : (l0 ++ [csi]).take l0.length = l0 := List.take_left l0 [csi]
  rw [hget, htake] at hh
  exact hh

/-! ## C6 -/

/-- C6 counterexample: on a fresh CREATED instance — whose status is not
STARTED — `next` fails with NoStateStarted (sequence empty), not with
InvalidTransition as the claim requires. -/
theorem next_fresh_no_state_started_cex :
    freshWfi.status ≠ WorkflowStatus.STARTED ∧
    next freshWfi none [] =
      { err := some OWDLError.NoStateStarted, inst := freshWfi, calls := [] } ∧
    (next freshWfi none []).err ≠ some OWDLError.InvalidTransition := by decide

/-- C6 amended: for every workflow instance with at least one state
instance, if the workflow status is not STARTED or the current state
instance's status is not COMPLETED, `next` fails with InvalidTransition,
appends no state instance and changes no status (the instance is
returned unchanged); on an empty sequence the failure is NoStateStarted
instead. -/
theorem next_guard_invalid_transition (wfi : OWDLWorkflowInstance)
    (args : Option (List String)) (cs : List ContainerInstance)
    (csi : OWDLStateInstance)
    (hlast : wfi.state_instances.getLast? = some csi)
    (hguard : wfi.status ≠ WorkflowStatus.STARTED ∨
      csi.status ≠ StateStatus.COMPLETED) :
    next wfi args cs =
      { err := some OWDLError.InvalidTransition, inst := wfi, calls := [] } := by
  simp only [next, hlast]
  rw [if_pos hguard]

/-- Witness for the amended C6: a FAILED run (workflow status FAILED,
current attempt FAILED). -/
theorem next_guard_invalid_transition_witness :
    next failedWfi none [] =
      { err := some OWDLError.InvalidTransition, inst := failedWfi, calls := [] } :=
  next_guard_invalid_transition failedWfi none []
    ⟨stateA, [], StateStatus.FAILED, 0⟩ rfl (by decide)

/-! ## C8 -/

/-- C8: `cancel_workflow` succeeds exactly when `cancel_state`'s guard
holds (STARTED workflow, STARTED current state instance); on success the
workflow status becomes CANCELLED, and on failure the error propagates
with the instance — workflow status and all state instances — left
unchanged. -/
theorem cancel_workflow_iff_guard (wfi : OWDLWorkflowInstance) :
    ((cancel_workflow wfi).err = none ↔ cancel_ok wfi) ∧
    ((cancel_workflow wfi).err = none →
      (cancel_workflow wfi).inst.status = WorkflowStatus.CANCELLED) ∧
    ((cancel_workflow wfi).err ≠ none → (cancel_workflow wfi).inst = wfi) := by
  by_cases hw : wfi.status = WorkflowStatus.STARTED
  · rcases hL : wfi.state_instances.getLast? with _ | csi
    · have hcs : cancel_state wfi =
          { err := some OWDLError.NoStateStarted, inst := wfi, calls := [] } := by
        simp [cancel_state, hw, hL]
      have hcw : cancel_workflow wfi =
          { err := some OWDLError.NoStateStarted, inst := wfi, calls := [] } := by
        simp [cancel_workflow, hcs]
      refine ⟨?_, ?_, ?_⟩
      · simp [hcw, cancel_ok, hL]
      · simp [hcw]
      · simp [hcw]
    · by_cases hst : csi.status = StateStatus.STARTED
      · have hcs : cancel_state wfi =
            { err := none
              inst := { wfi with
                state_instances := updateLast
                  (fun si => { si with status := StateStatus.CANCELLED })
                  wfi.state_instances }
              calls := [BackendCall.stopContainers
                (csi.containers.map (fun c => c.instance_id))] } := by
          simp [cancel_state, hw, hL, hst]
        have hcw : cancel_workflow wfi =
            { err := none
              inst := { wfi with
                state_instances := updateLast
                  (fun si => { si with status := StateStatus.CANCELLED })
                  wfi.state_instances
                status := WorkflowStatus.CANCELLED }
              calls := [BackendCall.stopContainers
                (csi.containers.map (fun c => c.instance_id))] } := by
          simp [cancel_workflow, hcs]
        refine ⟨?_, ?_, ?_⟩
        · simp only [hcw]
          constructor
          · intro _
            exact ⟨hw, csi, hL, hst⟩
          · intro _
            trivial
        · intro _
          simp [hcw]
        · intro h
          exact absurd (by simp [hcw]) h
      · have hcs : cancel_state wfi =
            { err := some OWDLError.InvalidTransition, inst := wfi, calls := [] } := by
          simp [cancel_state, hw, hL, hst]
        have hcw : cancel_workflow wfi =
            { err := some OWDLError.InvalidTransition, inst := wfi, calls := [] } := by
          simp [cancel_workflow, hcs]
        refine ⟨?_, ?_, ?_⟩
        · simp only [hcw]
          constructor
          · intro h
            simp at h
          · rintro ⟨_, csi2, hL2, hst2⟩
            rw [hL] at hL2
            cases hL2
            exact absurd hst2 hst
        · intro h
          simp [hcw] at h
        · intro _
          simp [hcw]
  · have hcs : cancel_state wfi =
        { err := some OWDLError.InvalidTransition, inst := wfi, calls := [] } := by
      simp [cancel_state, hw]
    have hcw : cancel_workflow wfi =
        { err := some OWDLError.InvalidTransition, inst := wfi, calls := [] } := by
      simp [cancel_workflow, hcs]
    refine ⟨?_, ?_, ?_⟩
    · simp [hcw, cancel_ok, hw]
    · intro h
      simp [hcw] at h
    · intro _
      simp [hcw]

/-- Witness for C8 at a concrete cancellable run (STARTED workflow,
STARTED current attempt). -/
theorem cancel_workflow_iff_guard_witness :
    ((cancel_workflow startedAWfi).err = none ↔ cancel_ok startedAWfi) ∧
    ((cancel_workflow startedAWfi).err = none →
      (cancel_workflow startedAWfi).inst.status = WorkflowStatus.CANCELLED) ∧
    ((cancel_workflow startedAWfi).err ≠ none →
      (cancel_workflow startedAWfi).inst = startedAWfi) :=
  cancel_workflow_iff_guard startedAWfi

/-! ## C5 -/

/-- C5: with the workflow status outside CREATED/CANCELLED/COMPLETED,
if the current state instance's retry number has reached its state
definition's retry limit, `retry` fails with RetryLimitExceeded and
leaves the instance unchanged (no state instance appended); moreover,
under the retry-number invariant, as soon as retry_count + 1 records
exist for the current state definition the same failure is forced, so
retry alone can never produce more than retry_count + 1 records for a
definition. -/
theorem retry_limit_exceeded_guard (wfi : OWDLWorkflowInstance)
    (args : Option (List String)) (cs : List ContainerInstance)
    (csi : OWDLStateInstance)
    (hw : ¬(wfi.status = WorkflowStatus.CREATED ∨
      wfi.status = WorkflowStatus.CANCELLED ∨
      wfi.status = WorkflowStatus.COMPLETED))
    (hlast : wfi.state_instances.getLast? = some csi) :
    (csi.owdl_state.retry_count ≤ csi.retry_num →
      retry wfi args cs =
        { err := some OWDLError.RetryLimitExceeded, inst := wfi, calls := [] }) ∧
    (retry_num_ok wfi.state_instances →
      csi.owdl_state.retry_count + 1 ≤
        sameStateCount wfi.state_instances csi.owdl_state →
      retry wfi args cs =
        { err := some OWDLError.RetryLimitExceeded, inst := wfi, calls := [] }) := by
  have hmain : csi.owdl_state.retry_count ≤ csi.retry_num →
      retry wfi args cs =
        { err := some OWDLError.RetryLimitExceeded, inst := wfi, calls := [] } := by
    intro hlim
    simp only [retry]
    rw [if_neg hw]
    simp only [hlast]
    rw [if_pos hlim]
  refine ⟨hmain, ?_⟩
  intro hinv hcount
  apply hmain
  have hsplit := getLast?_split hlast
  have h1 : csi.retry_num =
      sameStateCount wfi.state_instances.dropLast csi.owdl_state := by
    apply retry_num_ok_last
    rw [← hsplit]
    exact hinv
  have h2 : sameStateCount wfi.state_instances csi.owdl_state =
      sameStateCount wfi.state_instances.dropLast csi.owdl_state + 1 := by
    conv_lhs => rw [hsplit]
    rw [sameStateCount_concat]
    simp
  omega

/-- Witness for C5: a FAILED run whose single attempt of `stateA`
already carries retry number 1 = the retry limit. -/
theorem retry_limit_exceeded_guard_witness :
    (stateA.retry_count ≤ 1 →
      retry exhaustedWfi none [] =
        { err := some OWDLError.RetryLimitExceeded, inst := exhaustedWfi,
          calls := [] }) ∧
    (retry_num_ok exhaustedWfi.state_instances →
      stateA.retry_count + 1 ≤
        sameStateCount exhaustedWfi.state_instances stateA →
      retry exhaustedWfi none [] =
        { err := some OWDLError.RetryLimitExceeded, inst := exhaustedWfi,
          calls := [] }) :=
  retry_limit_exceeded_guard exhaustedWfi none []
    ⟨stateA, [], StateStatus.FAILED, 1⟩ (by decide) rfl

/-- Witness for C9: a STARTED run with a COMPLETED attempt of the
non-terminal `stateA`, which has no next-state identifier. -/
theorem next_no_next_reruns_current_witness :
    next completedAWfi none [] =
      { err := none
        inst := { completedAWfi with
          state_instances := completedAWfi.state_instances ++
            [⟨stateA, [], StateStatus.STARTED,
              sameStateCount completedAWfi.state_instances stateA⟩] }
        calls := [BackendCall.startContainers stateA.container_definition
          stateA.package_name stateA.cmd_args_list stateA.timeout] } :=
  next_no_next_reruns_current completedAWfi []
    ⟨stateA, [], StateStatus.COMPLETED, 0⟩ rfl rfl rfl rfl rfl

/-! ## C1 -/

/-- C1 counterexample: on a FAILED run with one FAILED attempt of
`stateA` (retry number 0, below the limit 1), `retry` succeeds and the
prior record's status is STARTED afterwards — it does not remain FAILED
as the claim states. -/
theorem retry_mutates_prior_record_cex :
    failedWfi.status = WorkflowStatus.FAILED ∧
    (failedWfi.state_instances.map (fun si => si.status)) = [StateStatus.FAILED] ∧
    (retry failedWfi none []).err = none ∧
    ((retry failedWfi none []).inst.state_instances.map (fun si => si.status)) =
      [StateStatus.STARTED, StateStatus.STARTED] := by decide

/-- C1 amended: under the claim's hypotheses a successful `retry` call
appends a new STARTED state instance for the same state definition
(carrying the count of existing records for that definition as retry
number), and sets the prior state instance's status to STARTED — the old
record is mutated in place, it does not remain FAILED/CANCELLED. -/
theorem retry_success_appends_and_mutates_prior (wfi : OWDLWorkflowInstance)
    (cs : List ContainerInstance) (csi : OWDLStateInstance)
    (hw : ¬(wfi.status = WorkflowStatus.CREATED ∨
      wfi.status = WorkflowStatus.CANCELLED ∨
      wfi.status = WorkflowStatus.COMPLETED))
    (hlast : wfi.state_instances.getLast? = some csi)
    (hlim : csi.retry_num < csi.owdl_state.retry_count)
    (hst : csi.status = StateStatus.FAILED ∨ csi.status = StateStatus.CANCELLED) :
    retry wfi none cs =
      { err := none
        inst := { wfi with
          state_instances := wfi.state_instances.dropLast ++
            [{ csi with status := StateStatus.STARTED },
             ⟨csi.owdl_state, cs, StateStatus.STARTED,
               sameStateCount wfi.state_instances csi.owdl_state⟩] }
        calls := [BackendCall.startContainers csi.owdl_state.container_definition
          csi.owdl_state.package_name csi.owdl_state.cmd_args_list
          csi.owdl_state.timeout] } := by
  have hsplit := getLast?_split hlast
  have hUL : updateLast (fun si => { si with status := StateStatus.STARTED })
        wfi.state_instances =
      wfi.state_instances.dropLast ++ [{ csi with status := StateStatus.STARTED }] := by
    conv_lhs => rw [hsplit]
    exact updateLast_concat _ _ _
  have hcount : sameStateCount
        (updateLast (fun si => { si with status := StateStatus.STARTED })
          wfi.state_instances) csi.owdl_state =
      sameStateCount wfi.state_instances csi.owdl_state := by
    unfold sameStateCount
    exact countP_updateLast (fun si => decide (si.owdl_state = csi.owdl_state))
      (fun si => { si with status := StateStatus.STARTED }) (fun a => rfl)
      wfi.state_instances
  simp only [retry]
  rw [if_neg hw]
  simp only [hlast]
  rw [if_neg (by omega : ¬ csi.retry_num ≥ csi.owdl_state.retry_count)]
  rw [if_pos hst]
  simp only [_run_state, execState, _get_retry_num]
  rw [hcount, hUL]
  simp [List.append_assoc]

/-- Witness for the amended C1: the FAILED run `failedWfi`. -/
theorem retry_success_appends_and_mutates_prior_witness :
    retry failedWfi none [] =
      { err := none
        inst := { failedWfi with
          state_instances := failedWfi.state_instances.dropLast ++
            [⟨stateA, [], StateStatus.STARTED, 0⟩,
             ⟨stateA, [], StateStatus.STARTED,
               sameStateCount failedWfi.state_instances stateA⟩] }
        calls := [BackendCall.startContainers stateA.container_definition
          stateA.package_name stateA.cmd_args_list stateA.timeout] } :=
  retry_success_appends_and_mutates_prior failedWfi []
    ⟨stateA, [], StateStatus.FAILED, 0⟩ (by decide) rfl (by decide) (Or.inl rfl)

/-! ## C3 -/

/-- C3 counterexample: `next` called with an explicitly provided empty
args list whose length differs from the base argument list of the state
to run does not fail with InvalidArguments — it succeeds and performs a
backend start call, because the source's `if args:` treats an empty list
as absent. -/
theorem empty_args_mismatch_accepted_cex :
    ([] : List String).length ≠ stateA.cmd_args_list.length ∧
    (next completedAWfi (some []) []).err = none ∧
    (next completedAWfi (some []) []).calls ≠ [] := by decide

/-- C3 amended: a non-empty args list whose length differs from the base
argument list of the state to run makes the call fail with
InvalidArguments and no backend call; `next` then leaves the instance
completely unchanged, while `retry` has already set the current state
instance's status to STARTED before the check (its only mutation; no
state instance is appended).  An empty provided args list is treated as
absent and triggers no check. -/
theorem nonempty_args_mismatch_invalid_arguments (wfi : OWDLWorkflowInstance)
    (a : List String) (cs : List ContainerInstance)
    (csi : OWDLStateInstance) (tgt : OWDLState)
    (hne : a ≠ [])
    (hlast : wfi.state_instances.getLast? = some csi) :
    ((wfi.status = WorkflowStatus.STARTED → csi.status = StateStatus.COMPLETED →
      csi.owdl_state.«end» = false →
      resolveNext wfi.owdl_workflow csi.owdl_state = some tgt →
      a.length ≠ tgt.cmd_args_list.length →
      next wfi (some a) cs =
        { err := some OWDLError.InvalidArguments, inst := wfi, calls := [] }) ∧
     (¬(wfi.status = WorkflowStatus.CREATED ∨
        wfi.status = WorkflowStatus.CANCELLED ∨
        wfi.status = WorkflowStatus.COMPLETED) →
      csi.retry_num < csi.owdl_state.retry_count →
      (csi.status = StateStatus.FAILED ∨ csi.status = StateStatus.CANCELLED) →
      a.length ≠ csi.owdl_state.cmd_args_list.length →
      retry wfi (some a) cs =
        { err := some OWDLError.InvalidArguments
          inst := { wfi with
            state_instances := updateLast
              (fun si => { si with status := StateStatus.STARTED })
              wfi.state_instances }
          calls := [] })) := by
  constructor
  · intro hw hs hend hres hlen
    simp only [next, hlast]
    rw [if_neg (by simp [hw, hs])]
    rw [if_neg (by simp [hend])]
    simp only [hres]
    simp only [_run_state]
    rw [if_neg hne, if_pos hlen]
  · intro hw hlim hst hlen
    simp only [retry]
    rw [if_neg hw]
    simp only [hlast]
    rw [if_neg (by omega : ¬ csi.retry_num ≥ csi.owdl_state.retry_count)]
    rw [if_pos hst]
    simp only [_run_state]
    rw [if_neg hne, if_pos hlen]

/-- Witness for the amended C3: `retry` on the FAILED run `failedWfi`
with a two-element args list against `stateA`'s one base fragment (the
`next` conjunct holds vacuously there, its workflow status being
FAILED). -/
theorem nonempty_args_mismatch_invalid_arguments_witness :
    ((failedWfi.status = WorkflowStatus.STARTED →
      StateStatus.FAILED = StateStatus.COMPLETED →
      stateA.«end» = false →
      resolveNext failedWfi.owdl_workflow stateA = some stateA →
      (["p", "q"] : List String).length ≠ stateA.cmd_args_list.length →
      next failedWfi (some ["p", "q"]) [] =
        { err := some OWDLError.InvalidArguments, inst := failedWfi,
          calls := [] }) ∧
     (¬(failedWfi.status = WorkflowStatus.CREATED ∨
        failedWfi.status = WorkflowStatus.CANCELLED ∨
        failedWfi.status = WorkflowStatus.COMPLETED) →
      (0 : Nat) < stateA.retry_count →
      (StateStatus.FAILED = StateStatus.FAILED ∨
        StateStatus.FAILED = StateStatus.CANCELLED) →
      (["p", "q"] : List String).length ≠ stateA.cmd_args_list.length →
      retry failedWfi (some ["p", "q"]) [] =
        { err := some OWDLError.InvalidArguments
          inst := { failedWfi with
            state_instances := updateLast
              (fun si => { si with status := StateStatus.STARTED })
              failedWfi.state_instances }
          calls := [] })) :=
  nonempty_args_mismatch_invalid_arguments failedWfi ["p", "q"] []
    ⟨stateA, [], StateStatus.FAILED, 0⟩ stateA (by decide) rfl

/-! ## C2: the retry-number invariant over all reachable instances -/

lemma retry_num_ok_iff_pair (l : List OWDLStateInstance) :
    retry_num_ok l ↔ pairRetryOk (l.map projSI) := by
  unfold retry_num_ok pairRetryOk
  constructor
  · intro h i hi
    have hi2 : i < l.length := by simpa using hi
    have hg : (l.map projSI).get ⟨i, hi⟩ = projSI (l.get ⟨i, hi2⟩) := by simp
    rw [hg]
    have htake : (l.map projSI).take i = (l.take i).map projSI :=
      (List.map_take _ _ _).symm
    rw [htake, List.countP_map]
    exact h i hi2
  · intro h i hi
    have hi2 : i < (l.map projSI).length := by simpa using hi
    have hh := h i hi2
    have hg : (l.map projSI).get ⟨i, hi2⟩ = projSI (l.get ⟨i, hi⟩) := by simp
    rw [hg] at hh
    have htake : (l.map projSI).take i = (l.take i).map projSI :=
      (List.map_take _ _ _).symm
    rw [htake, List.countP_map] at hh
    exact hh

lemma retry_num_ok_of_map_eq {l₁ l₂ : List OWDLStateInstance}
    (h : l₁.map projSI = l₂.map projSI) (hok : retry_num_ok l₁) :
    retry_num_ok l₂ := by
  rw [retry_num_ok_iff_pair] at hok ⊢
  rw [← h]
  exact hok

lemma pairRetryOk_append (L : List (OWDLState × Nat)) (p : OWDLState × Nat)
    (h : pairRetryOk L) (hp : p.2 = L.countP (fun q => decide (q.1 = p.1))) :
    pairRetryOk (L ++ [p]) := by
  intro i hi
  have hlen : (L ++ [p]).length = L.length + 1 := by simp
  by_cases hil : i < L.length
  · have hg : (L ++ [p]).get ⟨i, hi⟩ = L.get ⟨i, hil⟩ := by
      simp only [List.get_eq_getElem]
      exact List.getElem_append_left hil
    have ht : (L ++ [p]).take i = L.take i :=
      List.take_append_of_le_length (le_of_lt hil)
    rw [hg, ht]
    exact h i hil
  · have hieq : i = L.length := by
      rw [hlen] at hi
      omega
    subst hieq
    have hg : (L ++ [p]).get ⟨L.length, hi⟩ = p := by simp
    have ht : (L ++ [p]).take L.length = L := List.take_left L [p]
    rw [hg, ht]
    exact hp

lemma retry_num_ok_append (l : List OWDLStateInstance) (si : OWDLStateInstance)
    (h : retry_num_ok l) (hsi : si.retry_num = sameStateCount l si.owdl_state) :
    retry_num_ok (l ++ [si]) := by
  rw [retry_num_ok_iff_pair] at h ⊢
  rw [List.map_append]
  apply pairRetryOk_append _ _ h
  show si.retry_num = (l.map projSI).countP (fun q => decide (q.1 = si.owdl_state))
  rw [List.countP_map]
  exact hsi

lemma run_state_preserves (wfi : OWDLWorkflowInstance) (s : OWDLState)
    (args : Option (List String)) (cs : List ContainerInstance)
    (h : retry_num_ok wfi.state_instances) :
    retry_num_ok ((_run_state wfi s args cs).inst).state_instances := by
  cases args with
  | none =>
    simp only [_run_state, execState]
    exact retry_num_ok_append _ _ h rfl
  | some a =>
    by_cases ha : a = []
    · simp only [_run_state, if_pos ha, execState]
      exact retry_num_ok_append _ _ h rfl
    · by_cases hlen : a.length ≠ s.cmd_args_list.length
      · simp only [_run_state, if_neg ha, if_pos hlen]
        exact h
      · simp only [_run_state, if_neg ha, if_neg hlen, execState]
        exact retry_num_ok_append _ _ h rfl

lemma start_preserves (wfi : OWDLWorkflowInstance) (cs : List ContainerInstance)
    (h : retry_num_ok wfi.state_instances) :
    retry_num_ok ((start wfi cs).inst).state_instances := by
  by_cases hw : wfi.status ≠ WorkflowStatus.CREATED
  · simp only [start, if_pos hw]
    exact h
  · rcases hlk : wfi.owdl_workflow.states.lookup wfi.owdl_workflow.starts_at with _ | st
    · simp only [start, if_neg hw, hlk]
      exact h
    · rcases hr : _run_state wfi st none cs with ⟨e, inst2, calls2⟩
      have hrun := run_state_preserves wfi st none cs h
      rw [hr] at hrun
      cases e with
      | some e2 =>
        simp only [start, if_neg hw, hlk, hr]
        exact hrun
      | none =>
        simp only [start, if_neg hw, hlk, hr]
        by_cases hc : inst2.status = WorkflowStatus.CREATED
        · rw [if_pos hc]
          exact hrun
        · rw [if_neg hc]
          exact hrun

lemma next_preserves (wfi : OWDLWorkflowInstance) (args : Option (List String))
    (cs : List ContainerInstance)
    (h : retry_num_ok wfi.state_instances) :
    retry_num_ok ((next wfi args cs).inst).state_instances := by
  rcases hL : wfi.state_instances.getLast? with _ | csi
  · simp only [next, hL]
    exact h
  · simp only [next, hL]
    by_cases hg : wfi.status ≠ WorkflowStatus.STARTED ∨
        csi.status ≠ StateStatus.COMPLETED
    · rw [if_pos hg]
      exact h
    · rw [if_neg hg]
      by_cases he : csi.owdl_state.«end» = true
      · rw [if_pos he]
        exact h
      · rw [if_neg he]
        rcases hres : resolveNext wfi.owdl_workflow csi.owdl_state with _ | st
        · simp only [hres]
          exact h
        · simp only [hres]
          exact run_state_preserves wfi st args cs h

lemma get_status_preserves (wfi : OWDLWorkflowInstance)
    (refreshed : List ContainerInstance)
    (h : retry_num_ok wfi.state_instances) :
    retry_num_ok ((get_status wfi refreshed).inst).state_instances := by
  by_cases hw : wfi.status = WorkflowStatus.CREATED ∨
      wfi.status = WorkflowStatus.COMPLETED
  · simp only [get_status, if_pos hw]
    exact h
  · rcases hL : wfi.state_instances.getLast? with _ | csi
    · simp only [get_status, if_neg hw, hL]
      exact h
    · by_cases hc : csi.status = StateStatus.CANCELLED
      · simp only [get_status, if_neg hw, hL, if_pos hc]
        exact h
      · simp only [get_status, if_neg hw, hL, if_neg hc]
        exact retry_num_ok_of_map_eq
          (map_updateLast
            (fun si =>
              { si with
                containers := refreshed
                status := _get_state_status refreshed })
            projSI (fun a => rfl) wfi.state_instances).symm h

lemma cancel_state_preserves (wfi : OWDLWorkflowInstance)
    (h : retry_num_ok wfi.state_instances) :
    retry_num_ok ((cancel_state wfi).inst).state_instances := by
  by_cases hw : wfi.status ≠ WorkflowStatus.STARTED
  · simp only [cancel_state, if_pos hw]
    exact h
  · rcases hL : wfi.state_instances.getLast? with _ | csi
    · simp only [cancel_state, if_neg hw, hL]
      exact h
    · by_cases hc : csi.status ≠ StateStatus.STARTED
      · simp only [cancel_state, if_neg hw, hL, if_pos hc]
        exact h
      · simp only [cancel_state, if_neg hw, hL, if_neg hc]
        exact retry_num_ok_of_map_eq
          (map_updateLast
            (fun si => { si with status := StateStatus.CANCELLED })
            projSI (fun a => rfl) wfi.state_instances).symm h

lemma cancel_workflow_preserves (wfi : OWDLWorkflowInstance)
    (h : retry_num_ok wfi.state_instances) :
    retry_num_ok ((cancel_workflow wfi).inst).state_instances := by
  have hc := cancel_state_preserves wfi h
  rcases hr : cancel_state wfi with ⟨e, inst2, calls2⟩
  rw [hr] at hc
  cases e with
  | some e2 =>
    simp only [cancel_workflow, hr]
    exact hc
  | none =>
    simp only [cancel_workflow, hr]
    exact hc

lemma retry_preserves (wfi : OWDLWorkflowInstance) (args : Option (List String))
    (cs : List ContainerInstance)
    (h : retry_num_ok wfi.state_instances) :
    retry_num_ok ((retry wfi args cs).inst).state_instances := by
  by_cases hw : wfi.status = WorkflowStatus.CREATED ∨
      wfi.status = WorkflowStatus.CANCELLED ∨
      wfi.status = WorkflowStatus.COMPLETED
  · simp only [retry, if_pos hw]
    exact h
  · rcases hL : wfi.state_instances.getLast? with _ | csi
    · simp only [retry, if_neg hw, hL]
      exact h
    · by_cases hlim : csi.retry_num ≥ csi.owdl_state.retry_count
      · simp only [retry, if_neg hw, hL, if_pos hlim]
        exact h
      · by_cases hst : csi.status = StateStatus.FAILED ∨
            csi.status = StateStatus.CANCELLED
        · simp only [retry, if_neg hw, hL, if_neg hlim, if_pos hst]
          have h2 : retry_num_ok (updateLast
              (fun si => { si with status := StateStatus.STARTED })
              wfi.state_instances) :=
            retry_num_ok_of_map_eq
              (map_updateLast
                (fun si => { si with status := StateStatus.STARTED })
                projSI (fun a => rfl) wfi.state_instances).symm h
          exact run_state_preserves
            { wfi with
              state_instances := updateLast
                (fun si => { si with status := StateStatus.STARTED })
                wfi.state_instances }
            csi.owdl_state args cs h2
        · simp only [retry, if_neg hw, hL, if_neg hlim, if_neg hst]
          exact h

/-- C2: in every reachable workflow instance — reachable by any sequence
of start/next/retry/get_status/cancel operations with arbitrary backend
replies — the retry number of each state instance equals the number of
state instance records appended before it whose state definition is the
same; equivalently, the Nth attempt of a given state definition carries
retry number N − 1, however interleaved with other definitions. -/
theorem reachable_retry_num_invariant (wfi : OWDLWorkflowInstance)
    (h : Reachable wfi) : retry_num_ok wfi.state_instances := by
  induction h with
  | init id wf =>
    intro i hi
    simp at hi
  | start_step wfi2 cs _ ih => exact start_preserves wfi2 cs ih
  | next_step wfi2 args cs _ ih => exact next_preserves wfi2 args cs ih
  | retry_step wfi2 args cs _ ih => exact retry_preserves wfi2 args cs ih
  | get_status_step wfi2 refreshed _ ih => exact get_status_preserves wfi2 refreshed ih
  | cancel_state_step wfi2 _ ih => exact cancel_state_preserves wfi2 ih
  | cancel_workflow_step wfi2 _ ih => exact cancel_workflow_preserves wfi2 ih

/-- Witness for C2: the invariant holds of the instance obtained by
starting a fresh run. -/
theorem reachable_retry_num_invariant_witness :
    retry_num_ok ((start freshWfi []).inst).state_instances :=
  reachable_retry_num_invariant ((start freshWfi []).inst)
    (Reachable.start_step freshWfi [] (Reachable.init "run1" wfDef1))

end OWDL
